import Mathlib

/-!
Shallow embedding of the authentication subsystem of the language-learning
API (source under `src/api`): the session-token codec (`auth/jwt_manager.py`),
the identity reconciler (`services/user_service.py`), the authentication gate
(`auth/dependencies.py`), the refresh endpoint (`routes/auth.py`) and the
social-provider validators (`auth/social_validators.py`, `auth/schemas.py`).

Modelling conventions:
* wall-clock instants are natural numbers (seconds);
* database state is explicit (lists of rows) and passed functionally;
* Python `None` is `Option.none`; a dict key that may be absent *or* null is
  modelled as `Option (Option _)` where the outer layer is key presence;
* UUIDs are modelled as `Nat` identifiers; `str(uuid)` / `uuid.UUID(str)` is
  modelled by an executable decimal print/parse pair with a proved round trip;
* a JWT is a record carrying its payload together with the key and algorithm
  it was signed with; signature verification succeeds exactly when the key
  and algorithm of verifier and signer match (PyJWT order: signature, then
  `exp`, then `iss`, then `aud`; `exp <= now` means expired, no leeway).
-/

namespace LanguageAuth

/-! ## User identifiers: `str(user.id)` / `uuid.UUID(s)` (decimal model) -/

/-- Little-endian decimal digits of `n` (empty for `0`). -/
def toDigitsRev (n : Nat) : List Nat :=
  if h : n = 0 then [] else (n % 10) :: toDigitsRev (n / 10)
  decreasing_by exact Nat.div_lt_self (Nat.pos_of_ne_zero h) (by decide)

/-- Models `str(user.id)`: the canonical textual form of an identifier. -/
def serializeUserId (n : Nat) : String :=
  if n = 0 then "0" else String.mk (((toDigitsRev n).map Nat.digitChar).reverse)

/-- Models `uuid.UUID(s)`: parse the textual form of an identifier, `none`
on a malformed string (the source raises `ValueError` there). -/
def parseUserId (s : String) : Option Nat :=
  let cs := s.toList
  if cs ≠ [] ∧ cs.all (·.isDigit) then
    some (cs.foldl (fun a c => 10 * a + (c.toNat - 48)) 0)
  else none

/-! ## Data model (`models/user.py`, `models/social_account.py`,
`models/language.py`) -/

structure Language where
  id : Nat
  code : String
  deriving Repr, DecidableEq

structure User where
  id : Nat
  username : String
  email : Option String
  first_name : String
  last_name : String
  native_language_id : Option Nat
  study_language_id : Option Nat
  is_active : Bool
  profile_picture_url : Option String
  created_at : Nat
  last_login : Option Nat
  deriving Repr, DecidableEq

structure SocialAccount where
  id : Nat
  user_id : Nat
  provider : String
  provider_user_id : String
  provider_email : Option String
  provider_username : Option String
  provider_name : Option String
  created_at : Nat
  deriving Repr, DecidableEq

structure DB where
  users : List User
  socials : List SocialAccount
  langs : List Language
  nextUserId : Nat
  nextSocialId : Nat
  deriving Repr, DecidableEq

/-! ## Session-token codec (`auth/jwt_manager.py`) -/

structure JWTConfig where
  secret_key : String
  algorithm : String
  access_token_expire_minutes : Nat
  refresh_token_expire_days : Nat
  deriving Repr, DecidableEq

/-- `self.issuer` in `JWTManager.__init__`. -/
def jwtIssuer : String := "language-learning-api"

/-- `self.audience` in `JWTManager.__init__`. -/
def jwtAudience : String := "language-learning-app"

/-- The claim set of a session token. Snapshot claims that an access token
carries and a refresh token omits are `Option`-valued (`none` = absent). -/
structure Payload where
  sub : Option String
  iat : Nat
  exp : Nat
  iss : String
  aud : String
  type : Option String
  username : Option String
  email : Option String
  is_active : Option Bool
  native_lang : Option String
  study_lang : Option String
  scopes : List String
  deriving Repr, DecidableEq

/-- A signed token: payload plus the key/algorithm it was signed with. -/
structure Token where
  payload : Payload
  key : String
  alg : String
  deriving Repr, DecidableEq

inductive TokenError where
  | expired
  | invalid
  deriving Repr, DecidableEq

/-- `user.native_language.code if user.native_language else None`. -/
def langCode (langs : List Language) (id? : Option Nat) : Option String :=
  id?.bind fun i => (langs.find? (fun l => l.id == i)).map (·.code)

/-- `JWTManager.create_access_token`. -/
def create_access_token (cfg : JWTConfig) (langs : List Language) (u : User)
    (now : Nat) : Token :=
  { payload :=
      { sub := some (serializeUserId u.id)
        iat := now
        exp := now + 60 * cfg.access_token_expire_minutes
        iss := jwtIssuer
        aud := jwtAudience
        type := none
        username := some u.username
        email := u.email
        is_active := some u.is_active
        native_lang := langCode langs u.native_language_id
        study_lang := langCode langs u.study_language_id
        scopes := ["user", "study"] }
    key := cfg.secret_key
    alg := cfg.algorithm }

/-- `JWTManager.create_refresh_token`: subject and validity window only,
`type = "refresh"`, no profile snapshot. -/
def create_refresh_token (cfg : JWTConfig) (u : User) (now : Nat) : Token :=
  { payload :=
      { sub := some (serializeUserId u.id)
        iat := now
        exp := now + 86400 * cfg.refresh_token_expire_days
        iss := jwtIssuer
        aud := jwtAudience
        type := some "refresh"
        username := none
        email := none
        is_active := none
        native_lang := none
        study_lang := none
        scopes := [] }
    key := cfg.secret_key
    alg := cfg.algorithm }

/-- `JWTManager.verify_token` (via `jwt.decode` with audience and issuer):
signature first, then expiry (`exp <= now` expires, no leeway), then issuer,
then audience. `ExpiredSignatureError` becomes `expired`, every other
`InvalidTokenError` becomes `invalid`. -/
def verify_token (cfg : JWTConfig) (tok : Token) (now : Nat) :
    Except TokenError Payload :=
  if tok.key ≠ cfg.secret_key ∨ tok.alg ≠ cfg.algorithm then .error .invalid
  else if tok.payload.exp ≤ now then .error .expired
  else if tok.payload.iss ≠ jwtIssuer then .error .invalid
  else if tok.payload.aud ≠ jwtAudience then .error .invalid
  else .ok tok.payload

/-! ## Identity reconciler (`services/user_service.py`)

`create_or_get_user_from_social` first calls `validate_social_token`; that
network step is the job of the validators, so here the reconciler takes the
validator result dictionary (`provider_data`) as an argument.  The
validators always emit the keys `id` and `email` (`email` possibly null),
so `email` is `Option (Option String)`: outer layer = key present, inner =
value or null — `.get("email", default)` uses the default only when the key
is absent, not when its value is null. -/

structure ProviderData where
  id : String
  email : Option (Option String)
  username : Option String
  given_name : Option String
  family_name : Option String
  name : Option String
  picture : Option String
  email_verified : Bool
  deriving Repr, DecidableEq

inductive ReconcileError where
  /-- An uncaught Python `AttributeError` (null used as a string). -/
  | attrError
  /-- `ValueError` raised when the default languages are missing. -/
  | configError
  deriving Repr, DecidableEq

/-- `provider_data.get("email")`: `none` when the key is absent or null. -/
def emailValue (d : ProviderData) : Option String :=
  match d.email with
  | some (some e) => some e
  | _ => none

/-- The truthy email used by the `if provider_data.get("email"):` branch:
`none` when the key is absent, null, or the empty string. -/
def emailTruthyVal (d : ProviderData) : Option String :=
  match emailValue d with
  | some e => if e = "" then none else some e
  | none => none

/-- `provider_data.get("email", synthetic)` in the new-user dictionary: the
synthetic default fires only when the key is absent. -/
def userEmail (d : ProviderData) (synthetic : String) : Option String :=
  match d.email with
  | none => some synthetic
  | some v => v

/-! ### Username generation (`UserService._generate_unique_username`) -/

/-- `.lower()` (ASCII model, matching CPython on the characters that survive
the later strip to `[a-z0-9_]`). -/
def lowerStr (s : String) : String := String.mk (s.toList.map Char.toLower)

/-- `.replace(" ", "_")`. -/
def replaceSpaces (s : String) : String :=
  String.mk (s.toList.map fun c => if c = ' ' then '_' else c)

def isAllowedChar (c : Char) : Bool :=
  ('a' ≤ c && c ≤ 'z') || ('0' ≤ c && c ≤ '9') || c = '_'

/-- `re.sub` deleting every character outside `[a-z0-9_]`. -/
def stripChars (s : String) : String :=
  String.mk (s.toList.filter isAllowedChar)

/-- `s.split("@")[0]`: everything before the first `@` (all of `s` when
there is none). -/
def localPart (s : String) : String :=
  String.mk (s.toList.takeWhile (fun c => c ≠ '@'))

/-- The `or` chain selecting the raw base candidate:
`provider_data.get("username") or provider_data.get("email","").split("@")[0]
or the given/family name pair`.  When the `username` value is falsy and the
`email` key holds null, Python evaluates `.split` on `None` and raises
`AttributeError`. -/
def deriveRawBase (d : ProviderData) : Except ReconcileError String :=
  let u := d.username.getD ""
  if u ≠ "" then .ok u
  else
    match d.email with
    | some none => .error .attrError
    | some (some e) =>
      let lp := localPart e
      if lp ≠ "" then .ok lp
      else .ok (d.given_name.getD "" ++ "_" ++ d.family_name.getD "")
    | none =>
      .ok (d.given_name.getD "" ++ "_" ++ d.family_name.getD "")

/-- Lower-case, replace spaces, strip to `[a-z0-9_]`, and prepend `"user_"`
when the stripped base has fewer than 3 characters. -/
def finishBase (raw : String) : String :=
  let b := stripChars (replaceSpaces (lowerStr raw))
  if b.length < 3 then "user_" ++ b else b

def usernameTaken (db : DB) (nm : String) : Bool :=
  (db.users.find? (fun u => u.username == nm)).isSome

/-- The `while` probe: candidates `base`, `base_1`, `base_2`, … until one is
free.  The loop always terminates because usernames in the store are finite;
the fuel argument makes that explicit (`db.users.length + 1` suffices, since
the first `db.users.length + 1` candidates are distinct strings). -/
def probeUsername (db : DB) (base : String) : Nat → Nat → String
  | 0, counter => base ++ "_" ++ toString counter
  | fuel + 1, counter =>
    let cand := if counter = 0 then base else base ++ "_" ++ toString counter
    if usernameTaken db cand then probeUsername db base fuel (counter + 1)
    else cand

/-- `UserService._generate_unique_username`. -/
def generate_unique_username (db : DB) (d : ProviderData) :
    Except ReconcileError String := do
  let raw ← deriveRawBase d
  .ok (probeUsername db (finishBase raw) (db.users.length + 1) 0)

/-- The candidate sequence named by the claim: `base`, `base_1`, `base_2`, … -/
def candidateName (base : String) : Nat → String
  | 0 => base
  | k + 1 => base ++ "_" ++ toString (k + 1)

/-- The base-candidate derivation as the specification words it (priority
order provider username, then local part of the email, then the given/family
pair), total in the email: a null email value behaves like an absent one.
Spec-side reference definition for claim C5. -/
def claimRawBase (d : ProviderData) : String :=
  let u := d.username.getD ""
  if u ≠ "" then u
  else
    let lp := localPart ((emailValue d).getD "")
    if lp ≠ "" then lp
    else d.given_name.getD "" ++ "_" ++ d.family_name.getD ""

/-- Spec-side reference: normalised base per the claim wording. -/
def claimBase (d : ProviderData) : String :=
  let b := stripChars (replaceSpaces (lowerStr (claimRawBase d)))
  if b.length < 3 then "user_" ++ b else b

/-! ### Language preferences (`UserService._prepare_language_preferences`) -/

structure LanguagePrefs where
  native_language_code : String
  study_language_code : String
  deriving Repr, DecidableEq

def findLangByCode (db : DB) (code : String) : Option Language :=
  db.langs.find? (fun l => l.code == code)

def prepare_language_preferences (db : DB) (prefs : Option LanguagePrefs) :
    Except ReconcileError (Nat × Nat) :=
  let native_code := match prefs with
    | none => "en"
    | some p => p.native_language_code
  let study_code := match prefs with
    | none => "es"
    | some p => p.study_language_code
  let native_lang := match findLangByCode db native_code with
    | some l => some l
    | none => findLangByCode db "en"
  let study_lang := match findLangByCode db study_code with
    | some l => some l
    | none => findLangByCode db "es"
  match native_lang, study_lang with
  | some nl, some sl => .ok (nl.id, sl.id)
  | _, _ => .error .configError

/-! ### The reconciler itself -/

def findSocial (db : DB) (provider : String) (puid : String) :
    Option SocialAccount :=
  db.socials.find? (fun sa => sa.provider == provider && sa.provider_user_id == puid)

def findUserById (db : DB) (uid : Nat) : Option User :=
  db.users.find? (fun u => u.id == uid)

def findUserByEmail (db : DB) (e : String) : Option User :=
  db.users.find? (fun u => u.email == some e)

def updateLastLogin (users : List User) (uid : Nat) (now : Nat) : List User :=
  users.map fun u => if u.id = uid then { u with last_login := some now } else u

/-- The `user_data` dictionary of step 4, as a `User` row (the model fields
the store fills in — id, creation instant — included). -/
def newUserRow (db : DB) (provider : String) (d : ProviderData)
    (username : String) (langPair : Nat × Nat) (now : Nat) : User :=
  { id := db.nextUserId
    username := username
    email := userEmail d (username ++ "@" ++ provider ++ ".local")
    first_name := d.given_name.getD ""
    last_name := d.family_name.getD ""
    native_language_id := some langPair.1
    study_language_id := some langPair.2
    is_active := true
    profile_picture_url := d.picture
    created_at := now
    last_login := some now }

/-- The social-account row of step 5, bound to the user created in step 4. -/
def newSocialRow (db : DB) (provider : String) (d : ProviderData)
    (now : Nat) : SocialAccount :=
  { id := db.nextSocialId
    user_id := db.nextUserId
    provider := provider
    provider_user_id := d.id
    provider_email := emailValue d
    provider_username := d.username
    provider_name := d.name
    created_at := now }

/-- The store after steps 4–5 committed. -/
def newUserDB (db : DB) (provider : String) (d : ProviderData)
    (username : String) (langPair : Nat × Nat) (now : Nat) : DB :=
  { db with users := newUserRow db provider d username langPair now :: db.users
            socials := newSocialRow db provider d now :: db.socials
            nextUserId := db.nextUserId + 1
            nextSocialId := db.nextSocialId + 1 }

/-- Steps 4–5 of `create_or_get_user_from_social`: create the new user row
and its first social-account row in one unit. -/
def createNewUser (db : DB) (provider : String) (d : ProviderData)
    (prefs : Option LanguagePrefs) (now : Nat) :
    Except ReconcileError (DB × User × Bool) := do
  let username ← generate_unique_username db d
  let langPair ← prepare_language_preferences db prefs
  .ok (newUserDB db provider d username langPair now,
       newUserRow db provider d username langPair now, true)

/-- `UserService.create_or_get_user_from_social`, after token validation:
(2) social-account lookup by `(provider, provider_user_id)`;
(3) account linking by truthy email;
(4)–(5) create user plus first social account.
Returns the (updated) user and the `is_new_user` flag. -/
def create_or_get_user_from_social (db : DB) (provider : String)
    (d : ProviderData) (prefs : Option LanguagePrefs) (now : Nat) :
    Except ReconcileError (DB × User × Bool) :=
  match findSocial db provider d.id with
  | some sa =>
    match findUserById db sa.user_id with
    | none => .error .attrError
    | some u =>
      .ok ({ db with users := updateLastLogin db.users u.id now },
           { u with last_login := some now }, false)
  | none =>
    match emailTruthyVal d with
    | some e =>
      match findUserByEmail db e with
      | some u =>
        let sa : SocialAccount :=
          { id := db.nextSocialId
            user_id := u.id
            provider := provider
            provider_user_id := d.id
            provider_email := some e
            provider_username := d.username
            provider_name := d.name
            created_at := now }
        .ok ({ db with socials := sa :: db.socials
                       users := updateLastLogin db.users u.id now
                       nextSocialId := db.nextSocialId + 1 },
             { u with last_login := some now }, false)
      | none => createNewUser db provider d prefs now
    | none => createNewUser db provider d prefs now

/-! ## Authentication gate (`auth/dependencies.py`, `get_current_user`) -/

inductive GateError where
  | tokenExpired
  | tokenInvalid
  | userNotFound
  | accountDeactivated
  deriving Repr, DecidableEq

/-- Every gate failure is raised as `HTTPException(401)`. -/
def gateStatus : GateError → Nat := fun _ => 401

/-- `get_current_user`: verify the bearer token, extract and parse the
subject id (the falsy check also rejects an empty string), load the user,
check the active flag. -/
def get_current_user (cfg : JWTConfig) (db : DB) (tok : Token) (now : Nat) :
    Except GateError User :=
  match verify_token cfg tok now with
  | .error .expired => .error .tokenExpired
  | .error .invalid => .error .tokenInvalid
  | .ok payload =>
    match payload.sub with
    | none => .error .tokenInvalid
    | some s =>
      if s = "" then .error .tokenInvalid
      else
        match parseUserId s with
        | none => .error .tokenInvalid
        | some uid =>
          match findUserById db uid with
          | none => .error .userNotFound
          | some u => if u.is_active then .ok u else .error .accountDeactivated

/-- The gate as claim C6 words it: verify via the codec; a subject that is
absent or does not parse as the identifier type is `TokenInvalid`; a missing
account is `UserNotFound`; an inactive account is `AccountDeactivated`;
otherwise return the loaded account.  Spec-side reference definition. -/
def gateClaimed (cfg : JWTConfig) (db : DB) (tok : Token) (now : Nat) :
    Except GateError User :=
  match verify_token cfg tok now with
  | .error .expired => .error .tokenExpired
  | .error .invalid => .error .tokenInvalid
  | .ok payload =>
    match payload.sub.bind parseUserId with
    | none => .error .tokenInvalid
    | some uid =>
      match findUserById db uid with
      | none => .error .userNotFound
      | some u => if u.is_active then .ok u else .error .accountDeactivated

/-! ## Refresh endpoint (`routes/auth.py`, `refresh_token`) -/

inductive RefreshError where
  /-- `verify_token` raised (expired or invalid first-party token). -/
  | verifyFailed (e : TokenError)
  /-- The `type` claim is not `"refresh"`. -/
  | notRefreshToken
  /-- `payload["sub"]` missing or `uuid.UUID` rejects it. -/
  | malformedSub
  /-- `if not user or not user.is_active`. -/
  | userMissingOrInactive
  deriving Repr, DecidableEq

/-- The route catches every exception in the refresh path and re-raises
`HTTPException(401)`. -/
def refreshStatus : RefreshError → Nat := fun _ => 401

/-- `POST /auth/refresh`: verify, require `type == "refresh"`, load the
user, require active, mint a new access token (only). -/
def refresh_access_token (cfg : JWTConfig) (db : DB) (tok : Token)
    (now : Nat) : Except RefreshError Token :=
  match verify_token cfg tok now with
  | .error e => .error (.verifyFailed e)
  | .ok payload =>
    if payload.type ≠ some "refresh" then .error .notRefreshToken
    else
      match payload.sub with
      | none => .error .malformedSub
      | some s =>
        match parseUserId s with
        | none => .error .malformedSub
        | some uid =>
          match findUserById db uid with
          | none => .error .userMissingOrInactive
          | some u =>
            if u.is_active then .ok (create_access_token cfg db.langs u now)
            else .error .userMissingOrInactive

/-! ## Social validators (`auth/social_validators.py`) and the request
schema (`auth/schemas.py`) -/

inductive SocialValidationError where
  /-- `InvalidSocialTokenError`, mapped to 401 by the login route. -/
  | invalidProviderToken
  /-- `SocialProviderError`, mapped to 502 by the login route. -/
  | providerUnavailable
  /-- An exception no validator-specific handler catches (for example
  `httpx.RequestError` escaping `AppleTokenValidator.validate_token`);
  the login route collapses it to a generic 500. -/
  | uncaughtException
  deriving Repr, DecidableEq

/-- Status mapping in `routes/auth.py::social_login`. -/
def socialErrorStatus : SocialValidationError → Nat
  | .invalidProviderToken => 401
  | .providerUnavailable => 502
  | .uncaughtException => 500

/-- The members of the `SocialProvider` enum in `auth/schemas.py`. -/
def socialProviderEnum : List String := ["google", "facebook", "apple", "twitter"]

/-- The keys of the `VALIDATORS` registry in `auth/social_validators.py`. -/
def registeredValidators : List String :=
  ["google", "facebook", "apple", "twitter", "mock"]

/-- Pydantic validation of `SocialLoginRequest.provider`: only enum members
are accepted; anything else is rejected before the handler runs (422). -/
def parseSocialProvider (s : String) : Option String :=
  if socialProviderEnum.contains s then some s else none

/-- Whether a social-login request body with this provider string passes
request validation and reaches the endpoint handler. -/
def socialLoginRequestValid (provider : String) : Bool :=
  (parseSocialProvider provider).isSome

/-- The fixed dictionary returned by `MockSocialTokenValidator` for any
token other than the literal `"invalid"`. -/
def mockProviderData : ProviderData :=
  { id := "test_user_123"
    email := some (some "test@example.com")
    username := none
    given_name := some "Test"
    family_name := some "User"
    name := some "Test User"
    picture := some "https://example.com/avatar.jpg"
    email_verified := true }

/-- `MockSocialTokenValidator.validate_token`. -/
def mock_validate_token (token : String) :
    Except SocialValidationError ProviderData :=
  if token = "invalid" then .error .invalidProviderToken
  else .ok mockProviderData

/-- One entry of the Apple signing-key set (only the key id matters for key
selection). -/
structure AppleJWK where
  kid : String
  deriving Repr, DecidableEq

/-- Outcome of the `httpx` call fetching the Apple key set: either the
transport layer raised, or an HTTP response with a status code arrived. -/
inductive AppleKeysFetch where
  | transportError
  | httpResponse (status : Nat) (keys : List AppleJWK)
  deriving Repr, DecidableEq

/-- The relevant features of the presented Apple ID token:
whether the unverified header decodes, its key id, whether the RS256
signature verifies against the Apple key with that id, and its claims. -/
structure AppleIdToken where
  headerDecodable : Bool
  kid : Option String
  sigGenuine : Bool
  sub : String
  email : Option String
  given_name : Option String
  family_name : Option String
  email_verified : Bool
  aud : String
  iss : String
  deriving Repr, DecidableEq

def appleIssuer : String := "https://appleid.apple.com"

/-- `AppleTokenValidator.validate_token`.  The `try` block catches only
`jwt.InvalidTokenError`, so a malformed header becomes
`invalidProviderToken`, a non-200 key-set response raises
`SocialProviderError` (`providerUnavailable`), but a transport error from
the key fetch escapes uncaught. -/
def apple_validate_token (clientId : String) (fetch : AppleKeysFetch)
    (tok : AppleIdToken) : Except SocialValidationError ProviderData :=
  if ¬ tok.headerDecodable then .error .invalidProviderToken
  else
    match fetch with
    | .transportError => .error .uncaughtException
    | .httpResponse status keys =>
      if status ≠ 200 then .error .providerUnavailable
      else
        match keys.find? (fun k => some k.kid == tok.kid) with
        | none => .error .invalidProviderToken
        | some _ =>
          if tok.sigGenuine && tok.aud == clientId && tok.iss == appleIssuer
          then .ok
            { id := tok.sub
              email := some tok.email
              username := none
              given_name := some (tok.given_name.getD "")
              family_name := some (tok.family_name.getD "")
              name := some ((tok.given_name.getD "" ++ " " ++
                             tok.family_name.getD "").trim)
              picture := none
              email_verified := tok.email_verified }
          else .error .invalidProviderToken

/-! ## Fixtures used by the witnesses -/

def sampleConfig : JWTConfig :=
  { secret_key := "secret", algorithm := "HS256"
    access_token_expire_minutes := 60, refresh_token_expire_days := 30 }

def sampleLangs : List Language :=
  [{ id := 1, code := "en" }, { id := 2, code := "es" }]

def sampleUser : User :=
  { id := 7, username := "alice", email := some "alice@example.com"
    first_name := "Alice", last_name := "Liddell"
    native_language_id := some 1, study_language_id := some 2
    is_active := true, profile_picture_url := none
    created_at := 0, last_login := none }

def emptyDB : DB :=
  { users := [], socials := [], langs := sampleLangs
    nextUserId := 1, nextSocialId := 1 }

def aliceDB : DB :=
  { users := [sampleUser], socials := [], langs := sampleLangs
    nextUserId := 8, nextSocialId := 1 }

def johnUser : User :=
  { id := 3, username := "john", email := some "john@example.com"
    first_name := "John", last_name := "Doe"
    native_language_id := some 1, study_language_id := some 2
    is_active := true, profile_picture_url := none
    created_at := 0, last_login := none }

def johnDB : DB :=
  { users := [johnUser], socials := [], langs := sampleLangs
    nextUserId := 4, nextSocialId := 1 }

def johnIdentity : ProviderData :=
  { id := "tw_77", email := some (some "john@elsewhere.org")
    username := some "John", given_name := some "John"
    family_name := some "Doe", name := some "John Doe"
    picture := none, email_verified := true }

/-- An identity whose `email` key is present but null and whose provider
username is absent (the shape Facebook and Apple produce when the account
exposes no email). -/
def nullEmailIdentity : ProviderData :=
  { id := "apple_001", email := some none
    username := none, given_name := some "Test"
    family_name := some "User", name := some "Test User"
    picture := none, email_verified := false }

def sampleAppleToken : AppleIdToken :=
  { headerDecodable := true, kid := some "key1", sigGenuine := true
    sub := "apple-user-1", email := some "a@example.com"
    given_name := some "Ann", family_name := some "Apple"
    email_verified := true, aud := "client-id", iss := appleIssuer }

/-! # Theorems -/

/-! ## Auxiliary lemmas -/

theorem except_bind_ok (a : α) (f : α → Except ε β) :
    (bind (Except.ok a) f : Except ε β) = f a := rfl

theorem toDigitsRev_lt_ten (n : Nat) : ∀ d ∈ toDigitsRev n, d < 10 := by
  induction n using Nat.strong_induction_on with
  | _ n ih =>
    rw [toDigitsRev]
    split
    · intro d hd; simp at hd
    · rename_i h
      intro d hd
      rcases List.mem_cons.mp hd with h1 | h2
      · subst h1; exact Nat.mod_lt _ (by decide)
      · exact ih (n / 10) (Nat.div_lt_self (Nat.pos_of_ne_zero h) (by decide)) d h2

theorem toDigitsRev_ne_nil (n : Nat) (h : n ≠ 0) : toDigitsRev n ≠ [] := by
  rw [toDigitsRev]
  split
  · omega
  · simp

theorem digitChar_isDigit (d : Nat) (h : d < 10) :
    (Nat.digitChar d).isDigit = true := by
  interval_cases d <;> decide

theorem digitChar_toNat (d : Nat) (h : d < 10) :
    (Nat.digitChar d).toNat = 48 + d := by
  interval_cases d <;> decide

theorem foldl_digits (n : Nat) : ∀ a : Nat,
    (((toDigitsRev n).map Nat.digitChar).reverse).foldl
      (fun a c => 10 * a + (c.toNat - 48)) a
      = a * 10 ^ (toDigitsRev n).length + n := by
  induction n using Nat.strong_induction_on with
  | _ n ih =>
    intro a
    rw [toDigitsRev]
    split
    · rename_i h; subst h; simp
    · rename_i h
      have hdiv : n / 10 < n := Nat.div_lt_self (Nat.pos_of_ne_zero h) (by decide)
      simp only [List.map_cons, List.reverse_cons, List.foldl_append, List.foldl_cons,
        List.foldl_nil, List.length_cons]
      rw [ih (n / 10) hdiv a]
      rw [digitChar_toNat (n % 10) (Nat.mod_lt _ (by decide))]
      have : 10 * (a * 10 ^ (toDigitsRev (n / 10)).length + n / 10) + (48 + n % 10 - 48)
          = a * 10 ^ ((toDigitsRev (n / 10)).length + 1) + (10 * (n / 10) + n % 10) := by
        ring_nf
        omega
      rw [this, Nat.div_add_mod]

theorem parse_serialize_roundtrip (n : Nat) :
    parseUserId (serializeUserId n) = some n := by
  by_cases h : n = 0
  · subst h; rfl
  · have hne : toDigitsRev n ≠ [] := toDigitsRev_ne_nil n h
    have hall : (((toDigitsRev n).map Nat.digitChar).reverse).all (·.isDigit) = true := by
      rw [List.all_eq_true]
      intro c hc
      rw [List.mem_reverse, List.mem_map] at hc
      obtain ⟨d, hd, rfl⟩ := hc
      exact digitChar_isDigit d (toDigitsRev_lt_ten n d hd)
    unfold serializeUserId
    rw [if_neg h]
    unfold parseUserId
    have htl : (String.mk (((toDigitsRev n).map Nat.digitChar).reverse)).toList
        = ((toDigitsRev n).map Nat.digitChar).reverse := rfl
    simp only [htl]
    rw [if_pos]
    · have := foldl_digits n 0
      simp only [Nat.zero_mul] at this
      rw [this, Nat.zero_add]
    · constructor
      · simp [hne]
      · exact hall

theorem serializeUserId_ne_empty (n : Nat) : serializeUserId n ≠ "" := by
  unfold serializeUserId
  split
  · decide
  · rename_i hn
    intro h
    have hdata : ((toDigitsRev n).map Nat.digitChar).reverse = ([] : List Char) :=
      congrArg String.data h
    simp at hdata
    exact toDigitsRev_ne_nil n hn hdata

theorem verify_mint_access_ok (cfg : JWTConfig) (langs : List Language)
    (u : User) (iat t : Nat)
    (h : t < iat + 60 * cfg.access_token_expire_minutes) :
    verify_token cfg (create_access_token cfg langs u iat) t
      = .ok (create_access_token cfg langs u iat).payload := by
  have hexp : ¬ (iat + 60 * cfg.access_token_expire_minutes ≤ t) := by omega
  simp [verify_token, create_access_token, hexp, jwtIssuer, jwtAudience]

theorem verify_mint_refresh_ok (cfg : JWTConfig) (u : User) (iat t : Nat)
    (h : t < iat + 86400 * cfg.refresh_token_expire_days) :
    verify_token cfg (create_refresh_token cfg u iat) t
      = .ok (create_refresh_token cfg u iat).payload := by
  have hexp : ¬ (iat + 86400 * cfg.refresh_token_expire_days ≤ t) := by omega
  simp [verify_token, create_refresh_token, hexp, jwtIssuer, jwtAudience]

theorem prepare_language_preferences_ok (db : DB) (prefs : Option LanguagePrefs)
    (hen : (findLangByCode db "en").isSome = true)
    (hes : (findLangByCode db "es").isSome = true) :
    ∃ pr, prepare_language_preferences db prefs = .ok pr := by
  obtain ⟨en, hen'⟩ := Option.isSome_iff_exists.mp hen
  obtain ⟨es, hes'⟩ := Option.isSome_iff_exists.mp hes
  cases prefs with
  | none =>
    refine ⟨(en.id, es.id), ?_⟩
    simp [prepare_language_preferences, hen', hes']
  | some pp =>
    unfold prepare_language_preferences
    cases hn : findLangByCode db pp.native_language_code <;>
      cases hs : findLangByCode db pp.study_language_code <;>
        simp [hn, hs, hen', hes']

/-! ## C2 and C3: mint/verify round trip and the expiry boundary -/

/-- C2: for every user `u`, verifying the access token minted for `u` at any
time before issue-time plus the access TTL succeeds and returns the minted
claims, whose subject is the string form of `u.id` (it parses back to
`u.id`) and whose issuer and audience are the configured strings. -/
theorem access_token_mint_verify_roundtrip (cfg : JWTConfig)
    (langs : List Language) (u : User) (iat t : Nat)
    (h : t < iat + 60 * cfg.access_token_expire_minutes) :
    verify_token cfg (create_access_token cfg langs u iat) t
      = .ok (create_access_token cfg langs u iat).payload
    ∧ (create_access_token cfg langs u iat).payload.sub
        = some (serializeUserId u.id)
    ∧ parseUserId (serializeUserId u.id) = some u.id
    ∧ (create_access_token cfg langs u iat).payload.iss = jwtIssuer
    ∧ (create_access_token cfg langs u iat).payload.aud = jwtAudience :=
  ⟨verify_mint_access_ok cfg langs u iat t h, rfl,
   parse_serialize_roundtrip u.id, rfl, rfl⟩

theorem access_token_mint_verify_roundtrip_witness :
    verify_token sampleConfig (create_access_token sampleConfig sampleLangs sampleUser 100) 200
      = .ok (create_access_token sampleConfig sampleLangs sampleUser 100).payload
    ∧ (create_access_token sampleConfig sampleLangs sampleUser 100).payload.sub
        = some (serializeUserId sampleUser.id)
    ∧ parseUserId (serializeUserId sampleUser.id) = some sampleUser.id
    ∧ (create_access_token sampleConfig sampleLangs sampleUser 100).payload.iss = jwtIssuer
    ∧ (create_access_token sampleConfig sampleLangs sampleUser 100).payload.aud = jwtAudience :=
  access_token_mint_verify_roundtrip sampleConfig sampleLangs sampleUser 100 200
    (by decide)

/-- C3: a token minted with TTL `T` fails verification with `TokenExpired`
exactly when the verification time is at or after issue-time plus `T` (for
the access mint, the refresh mint, and — capturing that the check uses only
the embedded absolute expiry instant with no grace window — any token whose
signature verifies); strictly before that instant the expiry check passes
and verification of a minted token succeeds. -/
theorem token_expiry_exact_boundary (cfg : JWTConfig) (langs : List Language)
    (u : User) (iat t : Nat) :
    (iat + 60 * cfg.access_token_expire_minutes ≤ t →
      verify_token cfg (create_access_token cfg langs u iat) t = .error .expired)
    ∧ (t < iat + 60 * cfg.access_token_expire_minutes →
      verify_token cfg (create_access_token cfg langs u iat) t
        = .ok (create_access_token cfg langs u iat).payload)
    ∧ (iat + 86400 * cfg.refresh_token_expire_days ≤ t →
      verify_token cfg (create_refresh_token cfg u iat) t = .error .expired)
    ∧ (t < iat + 86400 * cfg.refresh_token_expire_days →
      verify_token cfg (create_refresh_token cfg u iat) t
        = .ok (create_refresh_token cfg u iat).payload)
    ∧ (∀ tok : Token, tok.key = cfg.secret_key → tok.alg = cfg.algorithm →
      (verify_token cfg tok t = .error .expired ↔ tok.payload.exp ≤ t)) := by
  refine ⟨?_, verify_mint_access_ok cfg langs u iat t,
          ?_, verify_mint_refresh_ok cfg u iat t, ?_⟩
  · intro h
    simp [verify_token, create_access_token, h]
  · intro h
    simp [verify_token, create_refresh_token, h]
  · intro tok hk ha
    constructor
    · intro hv
      unfold verify_token at hv
      rw [if_neg (by simp [hk, ha])] at hv
      by_cases he : tok.payload.exp ≤ t
      · exact he
      · rw [if_neg he] at hv
        split at hv <;> simp_all
        split at hv <;> simp_all
    · intro he
      unfold verify_token
      rw [if_neg (by simp [hk, ha]), if_pos he]

theorem token_expiry_exact_boundary_witness :
    verify_token sampleConfig (create_access_token sampleConfig sampleLangs sampleUser 0) 3600
      = .error .expired
    ∧ verify_token sampleConfig (create_access_token sampleConfig sampleLangs sampleUser 0) 3599
      = .ok (create_access_token sampleConfig sampleLangs sampleUser 0).payload
    ∧ verify_token sampleConfig (create_refresh_token sampleConfig sampleUser 0) 2592000
      = .error .expired
    ∧ (verify_token sampleConfig (create_refresh_token sampleConfig sampleUser 0) 12
        = .error .expired ↔ (create_refresh_token sampleConfig sampleUser 0).payload.exp ≤ 12) :=
  ⟨(token_expiry_exact_boundary sampleConfig sampleLangs sampleUser 0 3600).1 (by decide),
   (token_expiry_exact_boundary sampleConfig sampleLangs sampleUser 0 3599).2.1 (by decide),
   (token_expiry_exact_boundary sampleConfig sampleLangs sampleUser 0 2592000).2.2.1 (by decide),
   (token_expiry_exact_boundary sampleConfig sampleLangs sampleUser 0 12).2.2.2.2
     (create_refresh_token sampleConfig sampleUser 0) rfl rfl⟩

/-! ## C1 and C4: reconciliation -/

/-- C1: reconciling a canonical identity that is not yet linked (no social
account for its `(provider, externalId)`, and no existing account under its
email) twice in sequence returns `is_new_user = true` then `false`; both
calls return the same account id; the second call finds the account through
the social-account lookup by `(provider, externalId)` and updates the
last-login timestamp of the account. -/
theorem reconcile_same_identity_twice (db : DB) (p : String) (d : ProviderData)
    (prefs1 prefs2 : Option LanguagePrefs) (t1 t2 : Nat) (raw : String)
    (hsoc : findSocial db p d.id = none)
    (hemail : ∀ e, emailTruthyVal d = some e → findUserByEmail db e = none)
    (hraw : deriveRawBase d = .ok raw)
    (hen : (findLangByCode db "en").isSome = true)
    (hes : (findLangByCode db "es").isSome = true) :
    ∃ db1 u1, create_or_get_user_from_social db p d prefs1 t1 = .ok (db1, u1, true)
      ∧ ∃ db2 u2, create_or_get_user_from_social db1 p d prefs2 t2 = .ok (db2, u2, false)
        ∧ u2.id = u1.id
        ∧ u2.last_login = some t2
        ∧ ∃ sa, findSocial db1 p d.id = some sa ∧ sa.user_id = u1.id := by
  obtain ⟨pr, hpr⟩ := prepare_language_preferences_ok db prefs1 hen hes
  have hgen : generate_unique_username db d
      = .ok (probeUsername db (finishBase raw) (db.users.length + 1) 0) := by
    unfold generate_unique_username
    rw [hraw, except_bind_ok]
  have hcnu : createNewUser db p d prefs1 t1
      = .ok (newUserDB db p d (probeUsername db (finishBase raw) (db.users.length + 1) 0) pr t1,
             newUserRow db p d (probeUsername db (finishBase raw) (db.users.length + 1) 0) pr t1,
             true) := by
    unfold createNewUser
    rw [hgen, except_bind_ok, hpr, except_bind_ok]
  have hfirst : create_or_get_user_from_social db p d prefs1 t1
      = .ok (newUserDB db p d (probeUsername db (finishBase raw) (db.users.length + 1) 0) pr t1,
             newUserRow db p d (probeUsername db (finishBase raw) (db.users.length + 1) 0) pr t1,
             true) := by
    cases he : emailTruthyVal d with
    | none => simp only [create_or_get_user_from_social, hsoc, he]; exact hcnu
    | some e =>
      simp only [create_or_get_user_from_social, hsoc, he, hemail e he]
      exact hcnu
  have hfs : findSocial
      (newUserDB db p d (probeUsername db (finishBase raw) (db.users.length + 1) 0) pr t1)
      p d.id = some (newSocialRow db p d t1) := by
    unfold findSocial newUserDB
    rw [List.find?_cons_of_pos]
    simp [newSocialRow]
  have hfu : findUserById
      (newUserDB db p d (probeUsername db (finishBase raw) (db.users.length + 1) 0) pr t1)
      (newSocialRow db p d t1).user_id
      = some (newUserRow db p d (probeUsername db (finishBase raw) (db.users.length + 1) 0) pr t1) := by
    unfold findUserById newUserDB
    rw [List.find?_cons_of_pos]
    simp [newUserRow, newSocialRow]
  refine ⟨_, _, hfirst,
    { newUserDB db p d (probeUsername db (finishBase raw) (db.users.length + 1) 0) pr t1 with
        users := updateLastLogin
          (newUserDB db p d (probeUsername db (finishBase raw) (db.users.length + 1) 0) pr t1).users
          (newUserRow db p d (probeUsername db (finishBase raw) (db.users.length + 1) 0) pr t1).id t2 },
    { newUserRow db p d (probeUsername db (finishBase raw) (db.users.length + 1) 0) pr t1 with
        last_login := some t2 }, ?_, rfl, rfl, newSocialRow db p d t1, hfs, rfl⟩
  simp only [create_or_get_user_from_social, hfs, hfu]

theorem reconcile_same_identity_twice_witness :
    ∃ db1 u1,
      create_or_get_user_from_social emptyDB "mock" mockProviderData none 10
        = .ok (db1, u1, true)
      ∧ ∃ db2 u2,
          create_or_get_user_from_social db1 "mock" mockProviderData none 20
            = .ok (db2, u2, false)
          ∧ u2.id = u1.id
          ∧ u2.last_login = some 20
          ∧ ∃ sa, findSocial db1 "mock" mockProviderData.id = some sa
              ∧ sa.user_id = u1.id :=
  reconcile_same_identity_twice emptyDB "mock" mockProviderData none none 10 20
    "test" rfl (fun _ _ => rfl) rfl rfl rfl

/-- C4: reconciling an identity with no existing social link whose (truthy)
email matches an existing account links instead of duplicating: it returns
the pre-existing account (same id) with `is_new_user = false`, adds a social
account row binding `(provider, externalId)` to that account, creates no new
user row, and updates the last-login timestamp. -/
theorem reconcile_links_existing_email (db : DB) (p : String)
    (d : ProviderData) (prefs : Option LanguagePrefs) (t : Nat)
    (e : String) (u0 : User)
    (hsoc : findSocial db p d.id = none)
    (he : emailTruthyVal d = some e)
    (hu : findUserByEmail db e = some u0) :
    ∃ db2, create_or_get_user_from_social db p d prefs t
        = .ok (db2, { u0 with last_login := some t }, false)
      ∧ db2.users.map (·.id) = db.users.map (·.id)
      ∧ db2.users.length = db.users.length
      ∧ ∃ sa, findSocial db2 p d.id = some sa ∧ sa.user_id = u0.id := by
  have hstep : create_or_get_user_from_social db p d prefs t
      = .ok ({ db with
                socials := { id := db.nextSocialId, user_id := u0.id,
                             provider := p, provider_user_id := d.id,
                             provider_email := some e,
                             provider_username := d.username,
                             provider_name := d.name,
                             created_at := t } :: db.socials
                users := updateLastLogin db.users u0.id t
                nextSocialId := db.nextSocialId + 1 },
             { u0 with last_login := some t }, false) := by
    simp only [create_or_get_user_from_social, hsoc, he, hu]
  refine ⟨_, hstep, ?_, ?_, ?_⟩
  · show (updateLastLogin db.users u0.id t).map (·.id) = db.users.map (·.id)
    unfold updateLastLogin
    rw [List.map_map]
    apply List.map_congr_left
    intro u _
    by_cases h : u.id = u0.id <;> simp [h]
  · show (updateLastLogin db.users u0.id t).length = db.users.length
    unfold updateLastLogin
    exact List.length_map _ _
  · refine ⟨{ id := db.nextSocialId, user_id := u0.id, provider := p,
              provider_user_id := d.id, provider_email := some e,
              provider_username := d.username, provider_name := d.name,
              created_at := t }, ?_, rfl⟩
    unfold findSocial
    rw [List.find?_cons_of_pos]
    simp

theorem reconcile_links_existing_email_witness :
    ∃ db2,
      create_or_get_user_from_social aliceDB "facebook"
          { id := "fb_42", email := some (some "alice@example.com")
            username := none, given_name := some "Alice"
            family_name := some "Liddell", name := some "Alice Liddell"
            picture := none, email_verified := true } none 99
        = .ok (db2, { sampleUser with last_login := some 99 }, false)
      ∧ db2.users.map (·.id) = aliceDB.users.map (·.id)
      ∧ db2.users.length = aliceDB.users.length
      ∧ ∃ sa, findSocial db2 "facebook" "fb_42" = some sa
          ∧ sa.user_id = sampleUser.id :=
  reconcile_links_existing_email aliceDB "facebook" _ none 99
    "alice@example.com" sampleUser rfl rfl rfl

/-! ## C5: username generation -/

theorem candidate_if (base : String) (c : Nat) :
    (if c = 0 then base else base ++ "_" ++ toString c) = candidateName base c := by
  cases c <;> rfl

theorem probeUsername_first_free (db : DB) (base : String) :
    ∀ (k c fuel : Nat), k < fuel →
      (∀ j, j < k → usernameTaken db (candidateName base (c + j)) = true) →
      usernameTaken db (candidateName base (c + k)) = false →
      probeUsername db base fuel c = candidateName base (c + k) := by
  intro k
  induction k with
  | zero =>
    intro c fuel hf _ hfree
    obtain ⟨f, rfl⟩ : ∃ f, fuel = f + 1 := ⟨fuel - 1, by omega⟩
    rw [Nat.add_zero] at hfree
    simp [probeUsername, candidate_if base c, hfree]
  | succ k ih =>
    intro c fuel hf htaken hfree
    obtain ⟨f, rfl⟩ : ∃ f, fuel = f + 1 := ⟨fuel - 1, by omega⟩
    have h0 : usernameTaken db (candidateName base c) = true := by
      have := htaken 0 (by omega)
      rwa [Nat.add_zero] at this
    simp only [probeUsername, candidate_if base c, h0, if_true]
    have hc : c + (k + 1) = (c + 1) + k := by omega
    rw [hc]
    refine ih (c + 1) f (by omega) ?_ ?_
    · intro j hj
      have := htaken (j + 1) (by omega)
      rwa [show c + (j + 1) = c + 1 + j by omega] at this
    · rwa [show c + 1 + k = c + (k + 1) by omega]

theorem localPart_empty : localPart "" = "" := rfl

theorem deriveRawBase_eq_claim (d : ProviderData)
    (h : d.username.getD "" ≠ "" ∨ d.email ≠ some none) :
    deriveRawBase d = .ok (claimRawBase d) := by
  unfold deriveRawBase claimRawBase
  by_cases hu : d.username.getD "" = ""
  · rcases h with h | h
    · exact absurd hu h
    · cases hm : d.email with
      | none => simp [hu, emailValue, hm, localPart_empty]
      | some v =>
        cases v with
        | none => exact absurd hm h
        | some e =>
          by_cases hlp : localPart e = "" <;>
            simp [hu, emailValue, hm, hlp]
  · simp [hu]

/-- C5 counterexample: on an identity whose `email` key holds null and which
has no provider username (a shape the Facebook and Apple validators can
produce), the code raises `AttributeError` instead of deriving the
given/family base `"test_user"` prescribed by the claim. -/
theorem username_generation_null_email_counterexample :
    generate_unique_username emptyDB nullEmailIdentity = .error .attrError
    ∧ probeUsername emptyDB (claimBase nullEmailIdentity)
        (emptyDB.users.length + 1) 0 = "test_user" :=
  ⟨rfl, rfl⟩

/-- C5 (amended): provided the identity carries a provider username or its
email is not the null value (on null email with no username the code raises
instead), the generated username is obtained from the base candidate drawn
in priority order from provider username, email local part, then the
given/family pair, lower-cased, stripped to `[a-z0-9_]` and prefixed with
`"user_"` when shorter than 3 characters; the probe then appends `_1`,
`_2`, … and returns the first free candidate. -/
theorem username_generation_amended (db : DB) (d : ProviderData)
    (h : d.username.getD "" ≠ "" ∨ d.email ≠ some none) :
    generate_unique_username db d
      = .ok (probeUsername db (claimBase d) (db.users.length + 1) 0)
    ∧ (∀ s c, c ∈ (stripChars s).toList → isAllowedChar c = true)
    ∧ (∀ raw, (stripChars (replaceSpaces (lowerStr raw))).length < 3 →
        ∃ rest, finishBase raw = "user_" ++ rest)
    ∧ (∀ base, usernameTaken db base = false →
        probeUsername db base (db.users.length + 1) 0 = base)
    ∧ (∀ base k, k ≤ db.users.length →
        (∀ j, j < k → usernameTaken db (candidateName base j) = true) →
        usernameTaken db (candidateName base k) = false →
        probeUsername db base (db.users.length + 1) 0 = candidateName base k) := by
  refine ⟨?_, ?_, ?_, ?_, ?_⟩
  · unfold generate_unique_username
    rw [deriveRawBase_eq_claim d h, except_bind_ok]
    rfl
  · intro s c hc
    exact List.of_mem_filter hc
  · intro raw hlen
    refine ⟨stripChars (replaceSpaces (lowerStr raw)), ?_⟩
    unfold finishBase
    rw [if_pos hlen]
  · intro base hfree
    have := probeUsername_first_free db base 0 0 (db.users.length + 1)
      (by omega) (fun j hj => absurd hj (by omega)) (by simpa using hfree)
    simpa using this
  · intro base k hk htaken hfree
    have := probeUsername_first_free db base k 0 (db.users.length + 1)
      (by omega) (fun j hj => by simpa using htaken j hj) (by simpa using hfree)
    simpa using this

theorem username_generation_amended_witness :
    generate_unique_username johnDB johnIdentity = .ok "john_1"
    ∧ (∃ rest, finishBase "" = "user_" ++ rest) := by
  have h := username_generation_amended johnDB johnIdentity (Or.inl (by decide))
  exact ⟨by rw [h.1]; rfl, h.2.2.1 "" (by decide)⟩

/-! ## C6: the authentication gate -/

theorem parseUserId_empty : parseUserId "" = none := rfl

/-- C6: the gate proceeds exactly as claimed — verify the token via the
codec, report an absent or unparsable subject as `TokenInvalid`, a missing
account as `UserNotFound`, an inactive account as `AccountDeactivated`,
return the account otherwise — and every gate failure carries HTTP 401. -/
theorem gate_matches_claimed_order (cfg : JWTConfig) (db : DB) (tok : Token)
    (now : Nat) :
    get_current_user cfg db tok now = gateClaimed cfg db tok now
    ∧ (∀ e : GateError, gateStatus e = 401) := by
  constructor
  · cases hv : verify_token cfg tok now with
    | error e =>
      cases e <;> simp [get_current_user, gateClaimed, hv]
    | ok payload =>
      cases hs : payload.sub with
      | none => simp [get_current_user, gateClaimed, hv, hs]
      | some s =>
        by_cases he : s = ""
        · subst he
          simp [get_current_user, gateClaimed, hv, hs, parseUserId_empty]
        · simp only [get_current_user, gateClaimed, hv, hs]
          rw [if_neg he]
          rfl
  · intro e
    cases e <;> rfl

/-! ## C7: the refresh endpoint -/

/-- C7: refresh verifies the presented token and rejects any whose `type`
claim is not `"refresh"` — in particular a freshly minted access token —
with `notRefreshToken`; it requires the referenced user to exist and be
active (else `userMissingOrInactive`); on success it mints exactly a new
access token for the same subject; and every failure kind on this path maps
to HTTP 401. -/
theorem refresh_flow_behaviour (cfg : JWTConfig) (db : DB)
    (langs : List Language) (v u : User) (iatA iatR now : Nat) :
    (now < iatA + 60 * cfg.access_token_expire_minutes →
      refresh_access_token cfg db (create_access_token cfg langs v iatA) now
        = .error .notRefreshToken)
    ∧ (findUserById db u.id = some u → u.is_active = true →
        now < iatR + 86400 * cfg.refresh_token_expire_days →
        refresh_access_token cfg db (create_refresh_token cfg u iatR) now
          = .ok (create_access_token cfg db.langs u now)
        ∧ (create_access_token cfg db.langs u now).payload.sub
            = some (serializeUserId u.id)
        ∧ (create_access_token cfg db.langs u now).payload.type = none)
    ∧ (findUserById db u.id = none →
        now < iatR + 86400 * cfg.refresh_token_expire_days →
        refresh_access_token cfg db (create_refresh_token cfg u iatR) now
          = .error .userMissingOrInactive)
    ∧ (findUserById db u.id = some u → u.is_active = false →
        now < iatR + 86400 * cfg.refresh_token_expire_days →
        refresh_access_token cfg db (create_refresh_token cfg u iatR) now
          = .error .userMissingOrInactive)
    ∧ (∀ e : RefreshError, refreshStatus e = 401) := by
  refine ⟨?_, ?_, ?_, ?_, ?_⟩
  · intro h
    simp only [refresh_access_token]
    rw [verify_mint_access_ok cfg langs v iatA now h]
    simp [create_access_token]
  · intro hu ha h
    refine ⟨?_, rfl, rfl⟩
    simp only [refresh_access_token]
    rw [verify_mint_refresh_ok cfg u iatR now h]
    simp [create_refresh_token, parse_serialize_roundtrip, hu, ha]
  · intro hu h
    simp only [refresh_access_token]
    rw [verify_mint_refresh_ok cfg u iatR now h]
    simp [create_refresh_token, parse_serialize_roundtrip, hu]
  · intro hu ha h
    simp only [refresh_access_token]
    rw [verify_mint_refresh_ok cfg u iatR now h]
    simp [create_refresh_token, parse_serialize_roundtrip, hu, ha]
  · intro e
    cases e <;> rfl

theorem refresh_flow_behaviour_witness :
    refresh_access_token sampleConfig aliceDB
        (create_access_token sampleConfig sampleLangs sampleUser 0) 50
      = .error .notRefreshToken
    ∧ refresh_access_token sampleConfig aliceDB
        (create_refresh_token sampleConfig sampleUser 0) 50
      = .ok (create_access_token sampleConfig aliceDB.langs sampleUser 50) :=
  ⟨(refresh_flow_behaviour sampleConfig aliceDB sampleLangs sampleUser sampleUser
      0 0 50).1 (by decide),
   ((refresh_flow_behaviour sampleConfig aliceDB sampleLangs sampleUser sampleUser
      0 0 50).2.1 rfl rfl (by decide)).1⟩

/-! ## C10: the gate accepts refresh tokens -/

/-- C10: the gate performs no token-kind check — the refresh token minted
for an existing active user (which carries `type = "refresh"` and no
profile snapshot) passes the gate and yields that user, exactly as an
access token would. -/
theorem gate_accepts_refresh_token (cfg : JWTConfig) (db : DB) (u : User)
    (iat now : Nat)
    (hu : findUserById db u.id = some u)
    (ha : u.is_active = true)
    (hexp : now < iat + 86400 * cfg.refresh_token_expire_days) :
    get_current_user cfg db (create_refresh_token cfg u iat) now = .ok u
    ∧ (create_refresh_token cfg u iat).payload.type = some "refresh"
    ∧ (create_refresh_token cfg u iat).payload.username = none
    ∧ (create_refresh_token cfg u iat).payload.email = none := by
  refine ⟨?_, rfl, rfl, rfl⟩
  simp only [get_current_user]
  rw [verify_mint_refresh_ok cfg u iat now hexp]
  simp [create_refresh_token, serializeUserId_ne_empty,
    parse_serialize_roundtrip, hu, ha]

theorem gate_accepts_refresh_token_witness :
    get_current_user sampleConfig aliceDB
        (create_refresh_token sampleConfig sampleUser 0) 50 = .ok sampleUser
    ∧ (create_refresh_token sampleConfig sampleUser 0).payload.type = some "refresh"
    ∧ (create_refresh_token sampleConfig sampleUser 0).payload.username = none
    ∧ (create_refresh_token sampleConfig sampleUser 0).payload.email = none :=
  gate_accepts_refresh_token sampleConfig aliceDB sampleUser 0 50 rfl rfl (by decide)

/-! ## C8: the Apple validator error taxonomy -/

/-- C8 counterexample: when the key-fetch call itself errors (transport
failure), the Apple validator does not fail with `providerUnavailable` — the
exception escapes the handler uncaught and the login route maps it to a
generic 500, not the distinct 502 of `ProviderUnavailable`. -/
theorem apple_transport_error_counterexample :
    apple_validate_token "client-id" .transportError sampleAppleToken
      = .error .uncaughtException
    ∧ apple_validate_token "client-id" .transportError sampleAppleToken
        ≠ .error .providerUnavailable
    ∧ socialErrorStatus .uncaughtException = 500
    ∧ socialErrorStatus .providerUnavailable = 502 := by
  refine ⟨rfl, ?_, rfl, rfl⟩
  intro h
  exact absurd (Except.error.inj h) (by decide)

/-- C8 (amended): the Apple validator fails with `invalidProviderToken`
when the token header is undecodable, when no fetched signing key matches
the token key id, or when the signature or the audience/issuer check fails;
it fails with `providerUnavailable` (distinct, 502) when the key-set fetch
returns a non-200 status; but a transport error in the fetch call itself
escapes uncaught and surfaces as a generic 500 rather than
`providerUnavailable`. -/
theorem apple_error_classification_amended (clientId : String)
    (tok : AppleIdToken) (status : Nat) (keys : List AppleJWK) :
    (tok.headerDecodable = false →
      apple_validate_token clientId (.httpResponse status keys) tok
        = .error .invalidProviderToken)
    ∧ (tok.headerDecodable = true → status ≠ 200 →
      apple_validate_token clientId (.httpResponse status keys) tok
        = .error .providerUnavailable)
    ∧ (tok.headerDecodable = true →
       keys.find? (fun k => some k.kid == tok.kid) = none →
      apple_validate_token clientId (.httpResponse 200 keys) tok
        = .error .invalidProviderToken)
    ∧ (∀ k, tok.headerDecodable = true →
       keys.find? (fun k => some k.kid == tok.kid) = some k →
       (tok.sigGenuine && tok.aud == clientId && tok.iss == appleIssuer) = false →
      apple_validate_token clientId (.httpResponse 200 keys) tok
        = .error .invalidProviderToken)
    ∧ (tok.headerDecodable = true →
      apple_validate_token clientId .transportError tok
        = .error .uncaughtException)
    ∧ socialErrorStatus .invalidProviderToken = 401
    ∧ socialErrorStatus .providerUnavailable = 502
    ∧ socialErrorStatus .uncaughtException = 500 := by
  refine ⟨?_, ?_, ?_, ?_, ?_, rfl, rfl, rfl⟩
  · intro hh
    simp [apple_validate_token, hh]
  · intro hh hs
    simp [apple_validate_token, hh, hs]
  · intro hh hk
    simp [apple_validate_token, hh, hk]
  · intro k hh hk hsig
    simp [apple_validate_token, hh, hk, hsig]
  · intro hh
    simp [apple_validate_token, hh]

theorem apple_error_classification_amended_witness :
    apple_validate_token "client-id" (.httpResponse 503 [{ kid := "key1" }])
        sampleAppleToken = .error .providerUnavailable
    ∧ apple_validate_token "client-id" (.httpResponse 200 [{ kid := "other" }])
        sampleAppleToken = .error .invalidProviderToken
    ∧ apple_validate_token "client-id" .transportError sampleAppleToken
        = .error .uncaughtException :=
  ⟨(apple_error_classification_amended "client-id" sampleAppleToken 503
      [{ kid := "key1" }]).2.1 rfl (by decide),
   (apple_error_classification_amended "client-id" sampleAppleToken 200
      [{ kid := "other" }]).2.2.1 rfl (by decide),
   (apple_error_classification_amended "client-id" sampleAppleToken 0
      []).2.2.2.2.1 rfl⟩

/-! ## C9: the mock provider and the request schema -/

/-- C9: the `SocialProvider` request-schema enum has no `"mock"` member, so
a social-login request with provider `"mock"` is rejected by request
validation before the handler runs — even though the validator registry
contains a mock validator that rejects exactly the literal token
`"invalid"` and accepts any other token with its fixed identity (the
behaviour the claim and the in-repo test `test_auth_system.py` expect to
reach end to end). -/
theorem mock_provider_schema_gap :
    parseSocialProvider "mock" = none
    ∧ socialLoginRequestValid "mock" = false
    ∧ registeredValidators.contains "mock" = true
    ∧ mock_validate_token "invalid" = .error .invalidProviderToken
    ∧ mock_validate_token "test_token" = .ok mockProviderData
    ∧ mockProviderData.id = "test_user_123"
    ∧ socialErrorStatus .invalidProviderToken = 401 :=
  ⟨rfl, rfl, rfl, rfl, rfl, rfl, rfl⟩

end LanguageAuth
